import Mathlib

/-!
# Verification of the calendar-event subsystem of the couples finance app

A shallow embedding (in Lean 4) of the calendar-event lifecycle of the
single-file application `main.py`: the schema migration
(`ensure_calendar_schema`), event creation with derived time tracking
(`add_calendar_event` / `add_time_tracking`), the event query
(`get_calendar_events`), the month renderer (`generate_calendar_view`),
and the savings-goal progress reporting (`create_savings_goals_chart`,
`get_savings_progress`).

Conventions of the embedding:
* SQL NULL is `Option.none`; TEXT values are `String`.
* A SQLite table is a `List` of row structures plus the live column list
  (column membership is probed by the code before inserts/sorts, so the
  column list is part of the store state).
* Python `datetime` values are minute counts (`Int`); dates are
  proleptic-Gregorian day numbers (rata die).
* REAL amounts are modelled as `ℚ`.
-/

namespace CouplesApp

/-! ## Gregorian calendar arithmetic (Python `calendar` / `datetime`) -/

/-- Gregorian leap-year test (as in Python's `calendar.isleap`). -/
def isLeapYear (y : Nat) : Bool :=
  (y % 4 == 0 && y % 100 != 0) || y % 400 == 0

/-- Number of days in a month (Python `calendar.monthrange` day count). -/
def daysInMonth (y m : Nat) : Nat :=
  match m with
  | 2 => if isLeapYear y then 29 else 28
  | 4 => 30 | 6 => 30 | 9 => 30 | 11 => 30
  | _ => 31

/-- Days in year `y` strictly before month `m`. -/
def daysBeforeMonth (y m : Nat) : Nat :=
  ((List.range' 1 (m - 1)).map (daysInMonth y)).sum

/-- Rata die day number of the proleptic Gregorian date `(y, m, d)`:
day 1 is 0001-01-01 (a Monday). -/
def rataDie (y m d : Nat) : Nat :=
  365 * (y - 1) + (y - 1) / 4 - (y - 1) / 100 + (y - 1) / 400
    + daysBeforeMonth y m + d

/-- Weekday with Monday = 0 .. Sunday = 6 (Python `date.weekday()`). -/
def weekdayMon (y m d : Nat) : Nat :=
  (rataDie y m d + 6) % 7

example : weekdayMon 2025 10 12 = 6 := by decide
example : weekdayMon 2025 1 1 = 2 := by decide
example : weekdayMon 1970 1 1 = 3 := by decide
example : daysInMonth 2024 2 = 29 := by decide

/-- Zero-padded two-digit decimal rendering. -/
def pad2 (n : Nat) : String :=
  if n < 10 then "0" ++ toString n else toString n

/-- Zero-padded four-digit decimal rendering. -/
def pad4 (n : Nat) : String :=
  if n < 10 then "000" ++ toString n
  else if n < 100 then "00" ++ toString n
  else if n < 1000 then "0" ++ toString n
  else toString n

/-- `str(datetime.date(y, m, d))`: ISO `YYYY-MM-DD`. -/
def dateToStr (y m d : Nat) : String :=
  pad4 y ++ "-" ++ pad2 m ++ "-" ++ pad2 d

example : dateToStr 2025 1 5 = "2025-01-05" := by decide

/-! ## `strptime` style parsing

`add_calendar_event` parses `f"{date_str} {start_time}"` with format
`"%Y-%m-%d %H:%M"`; we model the two halves separately.  A `strptime`
numeric field matches a bounded run of digits and the resulting value is
range-checked by the `datetime` constructor. -/

/-- Split a character list at every occurrence of `sep`
(Python `str.split(sep)` for a one-character separator). -/
def splitOnChar (sep : Char) : List Char → List (List Char)
  | [] => [[]]
  | a :: as =>
    let r := splitOnChar sep as
    if a = sep then [] :: r
    else
      match r with
      | [] => [[a]]
      | h :: t => (a :: h) :: t

/-- Decimal value of a digit run. -/
def digitsToNat (l : List Char) : Nat :=
  l.foldl (fun acc c => acc * 10 + (c.toNat - 48)) 0

/-- One `strptime` numeric field: between `minLen` and `maxLen` digits,
value between `lo` and `hi`. -/
def parseField (minLen maxLen lo hi : Nat) (s : List Char) : Option Nat :=
  if minLen ≤ s.length ∧ s.length ≤ maxLen ∧ s.all (·.isDigit) then
    let n := digitsToNat s
    if lo ≤ n ∧ n ≤ hi then some n else none
  else none

/-- Parse `"%Y-%m-%d"` (year exactly 4 digits, month/day 1-2 digits,
validated against the Gregorian calendar as `datetime.date` does). -/
def parseDate (s : String) : Option (Nat × Nat × Nat) :=
  match splitOnChar '-' s.data with
  | [ys, ms, ds] => do
      let y ← parseField 4 4 1 9999 ys
      let m ← parseField 1 2 1 12 ms
      let d ← parseField 1 2 1 31 ds
      if d ≤ daysInMonth y m then some (y, m, d) else none
  | _ => none

/-- Parse `"%H:%M"` as minutes since midnight. -/
def parseHM (s : String) : Option Nat :=
  match splitOnChar ':' s.data with
  | [hs, ms] => do
      let h ← parseField 1 2 0 23 hs
      let m ← parseField 1 2 0 59 ms
      some (h * 60 + m)
  | _ => none

/-- `datetime.strptime(dateStr ++ " " ++ timeStr, "%Y-%m-%d %H:%M")`,
as an absolute minute count. -/
def parseDT (dateStr timeStr : String) : Option Int := do
  let (y, m, d) ← parseDate dateStr
  let t ← parseHM timeStr
  some ((rataDie y m d : Int) * 1440 + t)

example : parseHM "09:30" = some 570 := by decide
example : parseHM "9am" = none := by decide
example : parseDate "2025-01-10" = some (2025, 1, 10) := by decide
example : parseDate "2025-02-30" = none := by decide

/-- The duration computation of `add_calendar_event`:
`max(0, int((end_dt - start_dt).total_seconds() / 60))`.  Both datetimes
are whole-minute values, so the float division and `int` truncation are
exact. -/
def durationMinutes (startDT endDT : Int) : Nat :=
  (max 0 (endDT - startDT)).toNat

/-! ## Data model: the `calendar_events` and `time_tracking` tables -/

/-- A row of `calendar_events` (full target schema; a field of a column
that is absent from the live table is `none`).  The autoincrement `id` is
not modelled — no claim depends on it. -/
structure EventRow where
  couple_id : String
  partner_name : Option String := none
  date : Option String := none
  time : Option String := none
  start_time : Option String := none
  end_time : Option String := none
  timezone : Option String := none
  assigned_to : Option String := none
  created_by : Option String := none
  title : Option String := none
  category : Option String := none
  color : Option String := none
  description : Option String := none
  recurrence : Option String := none
  created_at : Option String := none
deriving DecidableEq, Repr

/-- A row of `time_tracking` as written by `add_time_tracking`. -/
structure TrackingRow where
  couple_id : String
  partner_name : String
  category : String
  date : String
  duration_minutes : Nat
deriving DecidableEq, Repr

/-- The persisted store: the live column list of `calendar_events`
(the code probes it with `PRAGMA table_info` before every insert/sort),
the two tables, and whether the `(couple_id, date)` index exists. -/
structure Store where
  event_cols : List String
  calendar_events : List EventRow
  time_tracking : List TrackingRow
  has_index : Bool := false
deriving DecidableEq, Repr

/-- Streamlit session names used by the tracking step
(`st.session_state.partner1_name` / `partner2_name`). -/
structure Session where
  partner1_name : String
  partner2_name : String
deriving DecidableEq, Repr

/-- Python truthiness of an optional string (`None` and `''` are falsy). -/
def truthy : Option String → Bool
  | none => false
  | some s => s != ""

/-! ## Schema migration: `ensure_calendar_schema` -/

/-- `ALTER TABLE calendar_events ADD COLUMN name ...`: fails if the column
already exists; otherwise appends the column and initialises every
existing row's new field (NULL, or the declared DEFAULT). -/
def addColumn (name : String) (init : EventRow → EventRow) (s : Store) :
    Except String Store :=
  if name ∈ s.event_cols then .error ("duplicate column: " ++ name)
  else .ok { s with
    event_cols := s.event_cols ++ [name]
    calendar_events := s.calendar_events.map init }

/-- One guarded add: the code checks the snapshot `cols` taken at the
start of `ensure_calendar_schema` before issuing the ALTER. -/
def addIfMissing (cols0 : List String) (s : Store)
    (p : String × (EventRow → EventRow)) : Except String Store :=
  if p.1 ∈ cols0 then .ok s else addColumn p.1 p.2 s

/-- The three time columns added first (plain `TEXT`, NULL default). -/
def timeColumns : List (String × (EventRow → EventRow)) :=
  [("time", fun r => { r with time := none }),
   ("start_time", fun r => { r with start_time := none }),
   ("end_time", fun r => { r with end_time := none })]

/-- The remaining defensive columns with their declared defaults
(matching the `for name, sqltype, default in [...]` loop). -/
def newerColumns : List (String × (EventRow → EventRow)) :=
  [("timezone", fun r => { r with timezone := some "Asia/Tokyo" }),
   ("assigned_to", fun r => { r with assigned_to := none }),
   ("created_by", fun r => { r with created_by := none }),
   ("category", fun r => { r with category := none }),
   ("color", fun r => { r with color := none }),
   ("description", fun r => { r with description := none }),
   ("recurrence", fun r => { r with recurrence := some "none" }),
   ("created_at", fun r => { r with created_at := none }),
   ("partner_name", fun r => { r with partner_name := none })]

/-- SQL `COALESCE` of two nullable values. -/
def coalesce2 (a b : Option String) : Option String :=
  match a with
  | some x => some x
  | none => b

/-- The backfill UPDATE:
`SET start_time = COALESCE(start_time, time)
 WHERE (start_time IS NULL OR start_time = '')`. -/
def backfillRow (r : EventRow) : EventRow :=
  if r.start_time = none ∨ r.start_time = some "" then
    { r with start_time := coalesce2 r.start_time r.time }
  else r

/-- `ensure_calendar_schema`: snapshot the column set (`cols0` is
`s.event_cols` throughout), add the missing time columns, run the
backfill UPDATE, add the remaining missing columns, and ensure the
`(couple_id, date)` index (`CREATE INDEX IF NOT EXISTS`). -/
def ensure_calendar_schema (s : Store) : Except String Store :=
  (timeColumns.foldlM (addIfMissing s.event_cols) s).bind fun s1 =>
    (newerColumns.foldlM (addIfMissing s.event_cols)
      { s1 with
        calendar_events := s1.calendar_events.map backfillRow }).bind fun s3 =>
      .ok { s3 with has_index := true }

/-! ## Event creation: `add_calendar_event` (+ `add_time_tracking`) -/

/-- The arguments of `add_calendar_event`. -/
structure EventArgs where
  couple_id : String
  assigned_to : String
  created_by : String
  date_str : String
  start_time : Option String
  end_time : Option String
  timezone : String
  title : String
  category : String
  color : String
  description : String
  recurrence : String := "none"
deriving DecidableEq, Repr

/-- The INSERT built column-by-column: required fields always, each
optional field only when its column exists in the live table
(`now` is `str(datetime.now())`, an ambient clock read). -/
def builtEventRow (cols : List String) (now : String) (a : EventArgs) :
    EventRow :=
  { couple_id := a.couple_id
    date := some a.date_str
    title := some a.title
    color := some a.color
    description := some a.description
    partner_name := if "partner_name" ∈ cols then some a.created_by else none
    time := if "time" ∈ cols then
        some (if truthy a.start_time then a.start_time.getD "" else "")
      else none
    start_time := if "start_time" ∈ cols then a.start_time else none
    end_time := if "end_time" ∈ cols then a.end_time else none
    timezone := if "timezone" ∈ cols then some a.timezone else none
    assigned_to := if "assigned_to" ∈ cols then some a.assigned_to else none
    created_by := if "created_by" ∈ cols then some a.created_by else none
    category := if "category" ∈ cols then some a.category else none
    recurrence := if "recurrence" ∈ cols then some a.recurrence else none
    created_at := if "created_at" ∈ cols then some now else none }

/-- `partner1_name if assigned_to == 'partner1' else partner2_name`. -/
def resolvePartner (sess : Session) (assigned : String) : String :=
  if assigned = "partner1" then sess.partner1_name else sess.partner2_name

/-- The derived time-tracking rows of one `add_calendar_event` call:
guarded by truthiness of both times and existence of the `start_time`
column; the `try`/`except` swallows any parse failure (no rows). -/
def trackingEntries (sess : Session) (cols : List String) (a : EventArgs) :
    List TrackingRow :=
  if truthy a.start_time && truthy a.end_time &&
      decide ("start_time" ∈ cols) then
    match parseDT a.date_str (a.start_time.getD ""),
          parseDT a.date_str (a.end_time.getD "") with
    | some sdt, some edt =>
      let duration := durationMinutes sdt edt
      if duration > 0 then
        if a.assigned_to = "both" then
          [{ couple_id := a.couple_id, partner_name := sess.partner1_name
             category := a.category, date := a.date_str
             duration_minutes := duration },
           { couple_id := a.couple_id, partner_name := sess.partner2_name
             category := a.category, date := a.date_str
             duration_minutes := duration }]
        else
          [{ couple_id := a.couple_id
             partner_name := resolvePartner sess a.assigned_to
             category := a.category, date := a.date_str
             duration_minutes := duration }]
      else []
    | _, _ => []
  else []

/-- `add_calendar_event`: append the event row (always), then the derived
tracking rows (possibly none). -/
def add_calendar_event (sess : Session) (now : String) (s : Store)
    (a : EventArgs) : Store :=
  { s with
    calendar_events := s.calendar_events ++ [builtEventRow s.event_cols now a]
    time_tracking := s.time_tracking ++ trackingEntries sess s.event_cols a }

/-! ## Event query: `get_calendar_events` -/

/-- The defensive sort expression: `COALESCE(start_time, time, '')`,
degrading based on which columns exist live. -/
def sortTimeExpr (cols : List String) (r : EventRow) : String :=
  if "start_time" ∈ cols ∧ "time" ∈ cols then
    (coalesce2 r.start_time r.time).getD ""
  else if "start_time" ∈ cols then r.start_time.getD ""
  else if "time" ∈ cols then r.time.getD ""
  else ""

/-- SQLite BINARY collation: bytewise strict comparison of TEXT values
(on UTF-8 data, bytewise order is codepoint-lexicographic order). -/
def charListLt : List Char → List Char → Bool
  | [], [] => false
  | [], _ :: _ => true
  | _ :: _, [] => false
  | a :: as, b :: bs =>
    if a < b then true
    else if b < a then false
    else charListLt as bs

/-- Strict TEXT comparison. -/
def strLt (a b : String) : Bool :=
  charListLt a.data b.data

/-- Non-strict TEXT comparison (used by `BETWEEN` and `ORDER BY`). -/
def strLe (a b : String) : Bool :=
  strLt a b || a == b

/-- SQLite ascending comparison of two nullable TEXT values:
NULL sorts before every value. -/
def optStrLtB (a b : Option String) : Bool :=
  match a, b with
  | none, none => false
  | none, some _ => true
  | some _, none => false
  | some x, some y => strLt x y

/-- `ORDER BY date, sort_time` as a boolean total preorder on rows. -/
def rowLe (cols : List String) (a b : EventRow) : Bool :=
  optStrLtB a.date b.date ||
    (a.date == b.date &&
      strLe (sortTimeExpr cols a) (sortTimeExpr cols b))

/-- The WHERE clause: household match, and — only when both range ends
are truthy — `date BETWEEN ? AND ?` (NULL dates fail the BETWEEN). -/
def passesFilter (couple : String) (start_date end_date : Option String)
    (r : EventRow) : Bool :=
  r.couple_id == couple &&
    (if truthy start_date && truthy end_date then
      match r.date with
      | some d =>
          strLe (start_date.getD "") d && strLe d (end_date.getD "")
      | none => false
    else true)

/-- `get_calendar_events`: filter then sort by `(date, sort_time)`. -/
def get_calendar_events (s : Store) (couple : String)
    (start_date end_date : Option String) : List EventRow :=
  (s.calendar_events.filter (passesFilter couple start_date end_date)).mergeSort
    (rowLe s.event_cols)

/-! ## Month renderer: `generate_calendar_view`

The HTML string is a fixed serialization of a grid structure; we embed
the grid (week-major list of cells) rather than the markup.  The renderer
reads `date.today()` — an ambient clock value — which the embedding makes
an explicit `today` argument. -/

/-- Python `s[:n]` on a string. -/
def strTake (n : Nat) (s : String) : String :=
  String.mk (s.data.take n)

/-- `color_map.get(event.get('color', 'blue'), '#4ECDC4')`: the stored
color tag mapped to the fixed palette; an unrecognized or NULL tag falls
to the default `#4ECDC4`. -/
def colorHex : Option String → String
  | some "red" => "#FF6B6B"
  | some "blue" => "#4ECDC4"
  | some "green" => "#95E77E"
  | some "yellow" => "#FFD93D"
  | some "purple" => "#A8E6CF"
  | some "orange" => "#FFB6C1"
  | some "cyan" => "#87CEEB"
  | some "pink" => "#FFB6C1"
  | _ => "#4ECDC4"

/-- One rendered event chip: color swatch, optional 5-character time
label, truncated title. -/
structure RenderedEvent where
  color : String
  time_label : Option String
  title_label : String
deriving DecidableEq, Repr

/-- Render one event: time shown (first 5 characters) iff `start_time`
is truthy; title truncated to 15 characters with the time, else 20, with
`...` appended when it was longer.  (`row.get('title', 'Event')` — the
default names a missing value.) -/
def renderEvent (e : EventRow) : RenderedEvent :=
  let color := colorHex e.color
  let title := e.title.getD "Event"
  if truthy e.start_time then
    let ts := e.start_time.getD ""
    { color := color
      time_label := some (strTake 5 ts)
      title_label :=
        strTake 15 title ++ (if title.data.length > 15 then "..." else "") }
  else
    { color := color
      time_label := none
      title_label :=
        strTake 20 title ++ (if title.data.length > 20 then "..." else "") }

/-- A grid cell: blank filler, or an in-month day with its markings, at
most 3 rendered events, and the `+N more` count when events overflow. -/
inductive Cell where
  | empty : Cell
  | day (num : Nat) (isToday : Bool) (isWeekend : Bool)
      (events : List RenderedEvent) (more : Option Nat) : Cell
deriving DecidableEq, Repr

/-- Render one in-month day cell.  `today` is the `date.today()` triple;
`dayIdx` is the position in the week (weekend iff `>= 5`). -/
def renderDay (events : List EventRow) (today : Nat × Nat × Nat)
    (y m dayNum dayIdx : Nat) : Cell :=
  let dstr := dateToStr y m dayNum
  let dayEvents := events.filter (fun e => e.date == some dstr)
  Cell.day dayNum
    (decide ((y, m, dayNum) = today))
    (decide (dayIdx ≥ 5))
    ((dayEvents.take 3).map renderEvent)
    (if dayEvents.length > 3 then some (dayEvents.length - 3) else none)

/-- Number of week rows of the month grid. -/
def numWeeks (y m : Nat) : Nat :=
  (weekdayMon y m 1 + daysInMonth y m + 6) / 7

/-- `calendar.monthcalendar(year, month)`: Monday-first week-major grid;
out-of-month cells are `0`. -/
def monthcalendar (y m : Nat) : List (List Nat) :=
  let w0 := weekdayMon y m 1
  let n := daysInMonth y m
  (List.range (numWeeks y m)).map (fun w =>
    (List.range 7).map (fun i =>
      let j := 7 * w + i
      if w0 ≤ j ∧ j < w0 + n then j - w0 + 1 else 0))

example : monthcalendar 2025 1 =
  [[0, 0, 1, 2, 3, 4, 5], [6, 7, 8, 9, 10, 11, 12],
   [13, 14, 15, 16, 17, 18, 19], [20, 21, 22, 23, 24, 25, 26],
   [27, 28, 29, 30, 31, 0, 0]] := by decide

/-- `generate_calendar_view(year, month, events_df)`: the week-major cell
grid (`today` is the ambient `date.today()` made explicit). -/
def generate_calendar_view (y m : Nat) (events : List EventRow)
    (today : Nat × Nat × Nat) : List (List Cell) :=
  (monthcalendar y m).map (fun week =>
    week.enum.map (fun p =>
      if p.2 = 0 then Cell.empty
      else renderDay events today y m p.2 p.1))

/-! ## Savings goals: `create_savings_goals_chart` / `get_savings_progress` -/

/-- A row of the `savings` transactions table (only the fields the
progress computations read). -/
structure SavingsRow where
  couple_id : String
  amount : ℚ
deriving DecidableEq, Repr

/-- A row of `savings_goals`. -/
structure GoalRow where
  couple_id : String
  goal_name : String
  target_amount : ℚ
deriving DecidableEq, Repr

/-- The financial store slice the savings-progress paths read. -/
structure FinanceStore where
  savings : List SavingsRow
  savings_goals : List GoalRow
deriving DecidableEq, Repr

/-- `get_all_couple_data("savings", couple_id)` (order irrelevant to the
sums taken of it). -/
def get_all_savings (db : FinanceStore) (couple : String) : List SavingsRow :=
  db.savings.filter (fun r => r.couple_id == couple)

/-- `get_savings_goals(couple_id)` (the `ORDER BY created_date DESC` is
irrelevant to the per-goal amounts). -/
def get_savings_goals (db : FinanceStore) (couple : String) : List GoalRow :=
  db.savings_goals.filter (fun r => r.couple_id == couple)

/-- `all_savings['amount'].sum() if not all_savings.empty else 0`. -/
def totalSaved (db : FinanceStore) (couple : String) : ℚ :=
  ((get_all_savings db couple).map (fun r => r.amount)).sum

/-- `create_savings_goals_chart`: `none` is the empty-state placeholder
chart; otherwise one `(goal_name, current, target)` bar pair per goal,
with `current = total_saved / num_goals if num_goals > 0 else 0`. -/
def create_savings_goals_chart (db : FinanceStore) (couple : String) :
    Option (List (String × ℚ × ℚ)) :=
  let goals := get_savings_goals db couple
  if goals.isEmpty then none
  else
    let total := totalSaved db couple
    some (goals.map (fun g =>
      (g.goal_name,
       if goals.length > 0 then total / (goals.length : ℚ) else 0,
       g.target_amount)))

/-- `get_savings_progress(couple_id, goal_name)`: note `goal_name` is
ignored — the function returns the household's total savings. -/
def get_savings_progress (db : FinanceStore) (couple : String)
    (_goal_name : String) : ℚ :=
  let df := get_all_savings db couple
  if df.isEmpty then 0 else ((df.map (fun r => r.amount)).sum)

/-! ## C3: duration is max(0, end − start) in whole minutes -/

/-- C3: for wall-clock times on the same calendar date (`dt` is the
common day's minute offset, `s`/`e` the minutes since midnight), the
derived duration is the exact minute difference when `e > s`, and `0`
when `e ≤ s` — never negative, never midnight-wrapped. -/
theorem duration_eq_max_zero_diff (dt : Int) (s e : Nat)
    (hs : s < 1440) (he : e < 1440) :
    (s < e → durationMinutes (dt * 1440 + s) (dt * 1440 + e) = e - s)
    ∧ (e ≤ s → durationMinutes (dt * 1440 + s) (dt * 1440 + e) = 0) := by
  constructor <;> intro h <;> simp [durationMinutes] <;> omega

/-- C3 witness: a 09:00–10:00 span on one date gives exactly 60 minutes. -/
theorem duration_eq_max_zero_diff_witness :
    540 < 600 ∧
      durationMinutes ((739260 : Int) * 1440 + 540) (739260 * 1440 + 600)
        = 600 - 540 :=
  ⟨by decide,
   (duration_eq_max_zero_diff 739260 540 600 (by decide) (by decide)).1
     (by decide)⟩

/-! ## C7: savings-goal progress reporting -/

/-- Concrete household for C7: one savings row of ¥100 and two goals. -/
def c7Store : FinanceStore :=
  { savings := [{ couple_id := "c", amount := 100 }]
    savings_goals :=
      [{ couple_id := "c", goal_name := "trip", target_amount := 500 },
       { couple_id := "c", goal_name := "house", target_amount := 500 }] }

/-- C7 counterexample: with 2 goals and total savings 100, the per-goal
progress reported by `get_savings_progress` is the full 100, not
100 / 2 = 50 — the claim that every reported current amount is
total / n fails on this path. -/
theorem savings_progress_not_divided :
    (get_savings_goals c7Store "c").length = 2
    ∧ totalSaved c7Store "c" = 100
    ∧ get_savings_progress c7Store "c" "trip" = 100
    ∧ get_savings_progress c7Store "c" "trip" ≠ totalSaved c7Store "c" / 2 := by
  refine ⟨by decide, by norm_num [totalSaved, get_all_savings, c7Store], ?_, ?_⟩
  · norm_num [get_savings_progress, get_all_savings, c7Store]
  · norm_num [get_savings_progress, totalSaved, get_all_savings, c7Store]

/-- C7 amended: the savings-goals chart divides the household total
equally (each bar's current amount is total / n), while
`get_savings_progress` reports the undivided household total for every
goal. -/
theorem savings_progress_spec (db : FinanceStore) (couple : String)
    (h : 0 < (get_savings_goals db couple).length) :
    create_savings_goals_chart db couple =
      some ((get_savings_goals db couple).map (fun g =>
        (g.goal_name,
         totalSaved db couple / ((get_savings_goals db couple).length : ℚ),
         g.target_amount)))
    ∧ ∀ name, get_savings_progress db couple name = totalSaved db couple := by
  constructor
  · have hne : (get_savings_goals db couple).isEmpty = false := by
      rcases hv : get_savings_goals db couple with _ | ⟨x, xs⟩
      · rw [hv] at h; simp at h
      · rfl
    simp [create_savings_goals_chart, hne, h]
  · intro name
    rcases hv : get_all_savings db couple with _ | ⟨x, xs⟩ <;>
      simp [get_savings_progress, totalSaved, hv]

/-- C7 witness: on the concrete household the chart reports 50 per goal. -/
theorem savings_progress_spec_witness :
    create_savings_goals_chart c7Store "c"
      = some [("trip", 50, 500), ("house", 50, 500)] := by
  have h := (savings_progress_spec c7Store "c" (by decide)).1
  rw [h]
  norm_num [get_savings_goals, totalSaved, get_all_savings, c7Store]

/-! ## C4, C8, C10: the derived time-tracking rows of `add_calendar_event` -/

/-- C4: when both times are present, the `start_time` column exists and
both halves parse, a positive duration yields exactly two full-duration
entries (one per partner) for `assigned_to = "both"`, exactly one entry
for the resolved partner otherwise, and a zero duration yields none. -/
theorem createEvent_tracking_rows (sess : Session) (now : String) (s : Store)
    (a : EventArgs) (sdt edt : Int)
    (ht : truthy a.start_time = true) (ht2 : truthy a.end_time = true)
    (hcol : "start_time" ∈ s.event_cols)
    (hps : parseDT a.date_str (a.start_time.getD "") = some sdt)
    (hpe : parseDT a.date_str (a.end_time.getD "") = some edt) :
    (0 < durationMinutes sdt edt → a.assigned_to = "both" →
      (add_calendar_event sess now s a).time_tracking = s.time_tracking ++
        [{ couple_id := a.couple_id, partner_name := sess.partner1_name,
           category := a.category, date := a.date_str,
           duration_minutes := durationMinutes sdt edt },
         { couple_id := a.couple_id, partner_name := sess.partner2_name,
           category := a.category, date := a.date_str,
           duration_minutes := durationMinutes sdt edt }])
    ∧ (0 < durationMinutes sdt edt → a.assigned_to ≠ "both" →
      (add_calendar_event sess now s a).time_tracking = s.time_tracking ++
        [{ couple_id := a.couple_id,
           partner_name := resolvePartner sess a.assigned_to,
           category := a.category, date := a.date_str,
           duration_minutes := durationMinutes sdt edt }])
    ∧ (durationMinutes sdt edt = 0 →
      (add_calendar_event sess now s a).time_tracking = s.time_tracking) := by
  refine ⟨fun h1 h2 => ?_, fun h1 h2 => ?_, fun h1 => ?_⟩
  · simp [add_calendar_event, trackingEntries, ht, ht2, decide_eq_true hcol,
      hps, hpe, h1, h2]
  · simp [add_calendar_event, trackingEntries, ht, ht2, decide_eq_true hcol,
      hps, hpe, h1, h2]
  · simp [add_calendar_event, trackingEntries, ht, ht2, decide_eq_true hcol,
      hps, hpe, h1]

/-- Concrete store and arguments for the C4 witness. -/
def c4Store : Store :=
  { event_cols := ["couple_id", "date", "time", "start_time", "end_time",
      "title", "color", "description"]
    calendar_events := [], time_tracking := [], has_index := true }

/-- A valid 60-minute event assigned to both partners. -/
def c4Args : EventArgs :=
  { couple_id := "c", assigned_to := "both", created_by := "Ann"
    date_str := "2025-01-10", start_time := some "09:00"
    end_time := some "10:00", timezone := "Asia/Tokyo", title := "Gym"
    category := "fitness", color := "red", description := "" }

/-- C4 witness: the 60-minute both-partner event writes exactly two
tracking rows, one per partner, each with duration 60. -/
theorem createEvent_tracking_rows_witness :
    (add_calendar_event ⟨"Ann", "Bo"⟩ "now" c4Store c4Args).time_tracking =
      [{ couple_id := "c", partner_name := "Ann", category := "fitness",
         date := "2025-01-10", duration_minutes := 60 },
       { couple_id := "c", partner_name := "Bo", category := "fitness",
         date := "2025-01-10", duration_minutes := 60 }] := by
  have h := (createEvent_tracking_rows ⟨"Ann", "Bo"⟩ "now" c4Store c4Args
    ((rataDie 2025 1 10 : Int) * 1440 + 540)
    ((rataDie 2025 1 10 : Int) * 1440 + 600)
    (by decide) (by decide) (by decide) (by decide) (by decide)).1
    (by decide) (by decide)
  rw [h]
  decide

/-- C8: when either time string fails to parse, the event row is still
appended and no tracking rows are written (the failure is swallowed). -/
theorem parse_failure_event_still_recorded (sess : Session) (now : String)
    (s : Store) (a : EventArgs)
    (hfail : parseDT a.date_str (a.start_time.getD "") = none
      ∨ parseDT a.date_str (a.end_time.getD "") = none) :
    (add_calendar_event sess now s a).calendar_events
      = s.calendar_events ++ [builtEventRow s.event_cols now a]
    ∧ (add_calendar_event sess now s a).time_tracking = s.time_tracking := by
  refine ⟨rfl, ?_⟩
  have hz : trackingEntries sess s.event_cols a = [] := by
    unfold trackingEntries
    rcases hps : parseDT a.date_str (a.start_time.getD "") with _ | sdt <;>
      rcases hpe : parseDT a.date_str (a.end_time.getD "") with _ | edt <;>
        simp [hps, hpe] <;>
          rcases hfail with h | h <;> simp_all
  simp [add_calendar_event, hz]

/-- Arguments with a malformed start time for the C8 witness. -/
def c8Args : EventArgs :=
  { couple_id := "c", assigned_to := "both", created_by := "Ann"
    date_str := "2025-01-10", start_time := some "9am"
    end_time := some "10:00", timezone := "Asia/Tokyo", title := "Gym"
    category := "fitness", color := "red", description := "" }

/-- C8 witness: with start time `"9am"` the event is written and the
tracking table is untouched. -/
theorem parse_failure_event_still_recorded_witness :
    (add_calendar_event ⟨"Ann", "Bo"⟩ "now" c4Store c8Args).calendar_events
      = [builtEventRow c4Store.event_cols "now" c8Args]
    ∧ (add_calendar_event ⟨"Ann", "Bo"⟩ "now" c4Store c8Args).time_tracking
      = [] := by
  have h := parse_failure_event_still_recorded ⟨"Ann", "Bo"⟩ "now" c4Store
    c8Args (Or.inl (by decide))
  exact ⟨h.1, h.2⟩

/-- C10: every `assigned_to` other than `"both"` and `"partner1"`
(e.g. `"unassigned"` or any unrecognized label) resolves to partner two:
a positive-duration event writes exactly one tracking row attributed to
`partner2_name`. -/
theorem other_assignee_resolves_to_partner2 (sess : Session) (now : String)
    (s : Store) (a : EventArgs) (sdt edt : Int)
    (hb : a.assigned_to ≠ "both") (hp1 : a.assigned_to ≠ "partner1")
    (ht : truthy a.start_time = true) (ht2 : truthy a.end_time = true)
    (hcol : "start_time" ∈ s.event_cols)
    (hps : parseDT a.date_str (a.start_time.getD "") = some sdt)
    (hpe : parseDT a.date_str (a.end_time.getD "") = some edt)
    (hd : 0 < durationMinutes sdt edt) :
    (add_calendar_event sess now s a).time_tracking = s.time_tracking ++
      [{ couple_id := a.couple_id, partner_name := sess.partner2_name,
         category := a.category, date := a.date_str,
         duration_minutes := durationMinutes sdt edt }] := by
  simp [add_calendar_event, trackingEntries, ht, ht2, decide_eq_true hcol,
    hps, hpe, hd, hb, resolvePartner, hp1]

/-- Arguments with an unrecognized assignee label for the C10 witness. -/
def c10Args : EventArgs :=
  { couple_id := "c", assigned_to := "unassigned", created_by := "Ann"
    date_str := "2025-01-10", start_time := some "09:00"
    end_time := some "10:00", timezone := "Asia/Tokyo", title := "Gym"
    category := "fitness", color := "red", description := "" }

/-- C10 witness: an `"unassigned"` 60-minute event writes one tracking
row for the second partner. -/
theorem other_assignee_resolves_to_partner2_witness :
    (add_calendar_event ⟨"Ann", "Bo"⟩ "now" c4Store c10Args).time_tracking =
      [{ couple_id := "c", partner_name := "Bo", category := "fitness",
         date := "2025-01-10", duration_minutes := 60 }] := by
  have h := other_assignee_resolves_to_partner2 ⟨"Ann", "Bo"⟩ "now" c4Store
    c10Args ((rataDie 2025 1 10 : Int) * 1440 + 540)
    ((rataDie 2025 1 10 : Int) * 1440 + 600)
    (by decide) (by decide) (by decide) (by decide) (by decide) (by decide)
    (by decide) (by decide)
  rw [h]
  decide

/-! ## C2: the renderer reads the ambient clock -/

/-- C2 counterexample: `generate_calendar_view` is not a function of
`(year, month, events)` alone — the code reads `date.today()` and marks
the matching cell, so the same `(2025, 1, [])` input rendered on
2025-01-15 differs from the same input rendered on 2025-06-15. -/
theorem renderMonth_depends_on_ambient_today :
    generate_calendar_view 2025 1 [] (2025, 1, 15)
      ≠ generate_calendar_view 2025 1 [] (2025, 6, 15) := by
  decide

/-- C2 amended: the renderer mutates nothing and is a deterministic
function of `(year, month, events)` and the ambient `date.today()` value;
whenever the clock value lies outside the rendered month on both runs,
the grids agree. -/
theorem renderMonth_deterministic_given_today (y m : Nat)
    (events : List EventRow) (t1 t2 : Nat × Nat × Nat)
    (h1 : ∀ d, (y, m, d) ≠ t1) (h2 : ∀ d, (y, m, d) ≠ t2) :
    generate_calendar_view y m events t1
      = generate_calendar_view y m events t2 := by
  unfold generate_calendar_view
  apply List.map_congr_left
  intro wk _
  apply List.map_congr_left
  intro p _
  by_cases hz : p.2 = 0
  · simp [hz]
  · simp [hz, renderDay, decide_eq_false (h1 p.2), decide_eq_false (h2 p.2)]

/-- C2 witness: January 2025 renders identically under two different
out-of-month clock values. -/
theorem renderMonth_deterministic_given_today_witness :
    generate_calendar_view 2025 1 [] (2024, 1, 1)
      = generate_calendar_view 2025 1 [] (2023, 5, 5) :=
  renderMonth_deterministic_given_today 2025 1 [] (2024, 1, 1) (2023, 5, 5)
    (fun d => by simp) (fun d => by simp)

/-! ## C1 and C6: the backfill and idempotence of `ensure_calendar_schema` -/

instance {ε α : Type} [DecidableEq ε] [DecidableEq α] :
    DecidableEq (Except ε α) := fun a b =>
  match a, b with
  | .ok x, .ok y =>
      if h : x = y then isTrue (by rw [h]) else isFalse (by simp [h])
  | .error x, .error y =>
      if h : x = y then isTrue (by rw [h]) else isFalse (by simp [h])
  | .ok _, .error _ => isFalse (by simp)
  | .error _, .ok _ => isFalse (by simp)

/-- When every target column is already in the snapshot, the guarded-add
fold changes nothing and reports no error. -/
theorem foldlM_addIfMissing_all_mem (cols0 : List String)
    (l : List (String × (EventRow → EventRow))) (s : Store)
    (hall : ∀ p ∈ l, p.1 ∈ cols0) :
    l.foldlM (addIfMissing cols0) s = .ok s := by
  induction l generalizing s with
  | nil => rfl
  | cons p l ih =>
      have hp : p.1 ∈ cols0 := hall p (by simp)
      have hstep : addIfMissing cols0 s p = .ok s := by
        simp [addIfMissing, hp]
      calc (p :: l).foldlM (addIfMissing cols0) s
          = addIfMissing cols0 s p >>= fun s2 =>
              l.foldlM (addIfMissing cols0) s2 := by
            simp [List.foldlM_cons]
        _ = l.foldlM (addIfMissing cols0) s := by rw [hstep]; rfl
        _ = .ok s := ih s (fun q hq => hall q (by simp [hq]))

/-- The base-schema column list of `calendar_events` (as created by
`init_database`), which contains every migration target. -/
def fullEventCols : List String :=
  ["id", "couple_id", "partner_name", "date", "time", "start_time",
   "end_time", "timezone", "assigned_to", "created_by", "title",
   "category", "color", "description", "recurrence", "created_at"]

/-- Store for the C1 counterexample: a fully-migrated table holding one
row whose `start_time` is the empty string while the legacy `time`
column holds `"09:00"`. -/
def c1Store : Store :=
  { event_cols := fullEventCols
    calendar_events :=
      [{ couple_id := "c", date := some "2025-01-01",
         start_time := some "", time := some "09:00",
         title := some "t" }]
    time_tracking := []
    has_index := false }

/-- C1 counterexample: after `ensure_calendar_schema`, the row whose
`start_time` was the empty string still holds the empty string, not the
legacy `time` value `"09:00"` — the `WHERE` clause matches the row but
`COALESCE(start_time, time)` returns the non-NULL empty string. -/
theorem backfill_skips_empty_string :
    (ensure_calendar_schema c1Store).toOption.map
        (fun st => st.calendar_events.map (fun r => (r.start_time, r.time)))
      = some [(some "", some "09:00")]
    ∧ (some "" : Option String) ≠ some "09:00" := by
  exact ⟨by decide, by decide⟩

/-- C1 amended: on a store that already has every target column, the
migration rewrites each row by the backfill UPDATE, and that UPDATE gives
the legacy `time` value only to rows whose `start_time` is NULL; a row
whose `start_time` is the empty string keeps the empty string, and all
other rows are untouched. -/
theorem ensure_schema_backfill_null_only (s s' : Store)
    (hcols : ∀ c ∈ (timeColumns ++ newerColumns).map Prod.fst,
      c ∈ s.event_cols)
    (h : ensure_calendar_schema s = .ok s') :
    s'.calendar_events = s.calendar_events.map backfillRow
    ∧ ∀ r ∈ s.calendar_events,
        (r.start_time = none → (backfillRow r).start_time = r.time)
        ∧ (r.start_time = some "" → (backfillRow r).start_time = some "")
        ∧ (r.start_time ≠ none ∧ r.start_time ≠ some "" →
            backfillRow r = r) := by
  have e1 : timeColumns.foldlM (addIfMissing s.event_cols) s = .ok s :=
    foldlM_addIfMissing_all_mem _ _ _ (fun p hp =>
      hcols p.1 (List.mem_map_of_mem Prod.fst (List.mem_append_left _ hp)))
  have e2 : newerColumns.foldlM (addIfMissing s.event_cols)
      { s with calendar_events := s.calendar_events.map backfillRow }
      = .ok { s with calendar_events := s.calendar_events.map backfillRow } :=
    foldlM_addIfMissing_all_mem _ _ _ (fun p hp =>
      hcols p.1 (List.mem_map_of_mem Prod.fst (List.mem_append_right _ hp)))
  have hmain : ensure_calendar_schema s = .ok
      { s with
        calendar_events := s.calendar_events.map backfillRow
        has_index := true } := by
    unfold ensure_calendar_schema
    rw [e1]
    simp only [Except.bind]
    rw [e2]
  rw [hmain] at h
  have hs' : s' = { s with
      calendar_events := s.calendar_events.map backfillRow
      has_index := true } := by
    cases h
    rfl
  constructor
  · rw [hs']
  · intro r _
    refine ⟨fun hn => ?_, fun he => ?_, fun hne => ?_⟩
    · simp [backfillRow, hn, coalesce2]
    · simp [backfillRow, he, coalesce2]
    · have hc : ¬(r.start_time = none ∨ r.start_time = some "") := by
        rintro (hx | hx)
        · exact hne.1 hx
        · exact hne.2 hx
      simp [backfillRow, hc]

/-- Store for the C1 witness: one NULL `start_time` row with a legacy
time value. -/
def c1bStore : Store :=
  { event_cols := fullEventCols
    calendar_events :=
      [{ couple_id := "c", date := some "2025-01-01",
         start_time := none, time := some "08:00", title := some "t" }]
    time_tracking := []
    has_index := false }

/-- C1 witness: on the concrete store the migrated rows are the backfill
image, and its NULL `start_time` row receives the legacy value. -/
theorem ensure_schema_backfill_null_only_witness :
    (ensure_calendar_schema c1bStore).toOption.map
        (fun st => st.calendar_events.map (fun r => r.start_time))
      = some [some "08:00"] := by
  have h := ensure_schema_backfill_null_only c1bStore
    { c1bStore with
      calendar_events := c1bStore.calendar_events.map backfillRow
      has_index := true }
    (by decide) (by rfl)
  have h2 := h.1
  decide

/-! ### Helper lemmas for idempotence (C6) -/

/-- The guarded-add fold only appends columns: every live column of the
input store is a live column of the result. -/
theorem foldlM_addIfMissing_cols_mono (cols0 : List String)
    (l : List (String × (EventRow → EventRow))) :
    ∀ s s' : Store, l.foldlM (addIfMissing cols0) s = .ok s' →
      ∀ c ∈ s.event_cols, c ∈ s'.event_cols := by
  induction l with
  | nil =>
      intro s s' h c hc
      have h' : Except.ok s = Except.ok s' := h
      cases h'
      exact hc
  | cons q l ih =>
      intro s s' h c hc
      rw [List.foldlM_cons] at h
      rcases hstep : addIfMissing cols0 s q with e | s1
      · rw [hstep] at h
        have hbad : (Except.error e : Except String Store) = .ok s' := h
        cases hbad
      · rw [hstep] at h
        have h1 : l.foldlM (addIfMissing cols0) s1 = .ok s' := h
        unfold addIfMissing at hstep
        by_cases hq : q.1 ∈ cols0
        · rw [if_pos hq] at hstep
          have h2 : Except.ok s = Except.ok s1 := hstep
          cases h2
          exact ih s s' h1 c hc
        · rw [if_neg hq] at hstep
          unfold addColumn at hstep
          by_cases hm : q.1 ∈ s.event_cols
          · rw [if_pos hm] at hstep
            cases hstep
          · rw [if_neg hm] at hstep
            have h2 : Except.ok _ = Except.ok s1 := hstep
            cases h2
            exact ih _ s' h1 c (by simp [hc])

/-- After a successful guarded-add fold whose snapshot is contained in
the input's live columns, every target name of the fold is live. -/
theorem foldlM_addIfMissing_target_mem (cols0 : List String)
    (l : List (String × (EventRow → EventRow))) :
    ∀ s s' : Store, l.foldlM (addIfMissing cols0) s = .ok s' →
      (∀ c ∈ cols0, c ∈ s.event_cols) →
      ∀ p ∈ l, p.1 ∈ s'.event_cols := by
  induction l with
  | nil =>
      intro s s' _ _ p hp
      simp at hp
  | cons q l ih =>
      intro s s' h hsub p hp
      rw [List.foldlM_cons] at h
      rcases hstep : addIfMissing cols0 s q with e | s1
      · rw [hstep] at h
        have hbad : (Except.error e : Except String Store) = .ok s' := h
        cases hbad
      · rw [hstep] at h
        have h1 : l.foldlM (addIfMissing cols0) s1 = .ok s' := h
        unfold addIfMissing at hstep
        by_cases hq : q.1 ∈ cols0
        · rw [if_pos hq] at hstep
          have h2 : Except.ok s = Except.ok s1 := hstep
          cases h2
          rcases List.mem_cons.mp hp with rfl | hp
          · exact foldlM_addIfMissing_cols_mono cols0 l s s' h1 _ (hsub _ hq)
          · exact ih s s' h1 hsub p hp
        · rw [if_neg hq] at hstep
          unfold addColumn at hstep
          by_cases hm : q.1 ∈ s.event_cols
          · rw [if_pos hm] at hstep
            cases hstep
          · rw [if_neg hm] at hstep
            have h2 : Except.ok _ = Except.ok s1 := hstep
            cases h2
            rcases List.mem_cons.mp hp with rfl | hp
            · exact foldlM_addIfMissing_cols_mono cols0 l _ s' h1 _ (by simp)
            · exact ih _ s' h1 (fun c hc => by simp [hsub c hc]) p hp

/-- Writing back a row's own `start_time` is the identity. -/
theorem update_start_time_self (x : EventRow) :
    { x with start_time := x.start_time } = x := by
  cases x
  rfl

/-- The backfill UPDATE is idempotent row-wise. -/
theorem backfillRow_idem (r : EventRow) :
    backfillRow (backfillRow r) = backfillRow r := by
  obtain ⟨x1, x2, x3, x4, x5, x6, x7, x8, x9, x10, x11, x12, x13, x14, x15⟩ := r
  rcases x5 with _ | v
  · rcases x4 with _ | w
    · simp [backfillRow, coalesce2]
    · by_cases hw : w = "" <;> simp [backfillRow, coalesce2, hw]
  · by_cases hv : v = "" <;> simp [backfillRow, coalesce2, hv]

/-- A field update that does not touch `start_time` or `time` preserves
being a fixed point of the backfill UPDATE. -/
theorem backfill_fixed_of_update (f : EventRow → EventRow)
    (hf : ∀ x, (f x).start_time = x.start_time ∧ (f x).time = x.time)
    (r : EventRow) (hr : backfillRow r = r) : backfillRow (f r) = f r := by
  by_cases hc : r.start_time = none ∨ r.start_time = some ""
  · have h1 : coalesce2 r.start_time r.time = r.start_time := by
      have hr' := hr
      unfold backfillRow at hr'
      rw [if_pos hc] at hr'
      simpa using congrArg EventRow.start_time hr'
    have hcf : (f r).start_time = none ∨ (f r).start_time = some "" := by
      rw [(hf r).1]; exact hc
    have hval : coalesce2 (f r).start_time (f r).time = (f r).start_time := by
      rw [(hf r).1, (hf r).2, h1]
    unfold backfillRow
    rw [if_pos hcf, hval]
  · have hcf : ¬((f r).start_time = none ∨ (f r).start_time = some "") := by
      rw [(hf r).1]; exact hc
    unfold backfillRow
    rw [if_neg hcf]

/-- A guarded-add fold whose setters do not touch `start_time`/`time`
preserves row-wise backfill fixedness. -/
theorem foldlM_addIfMissing_rows_fixed (cols0 : List String)
    (l : List (String × (EventRow → EventRow)))
    (hpres : ∀ p ∈ l, ∀ x : EventRow,
      (p.2 x).start_time = x.start_time ∧ (p.2 x).time = x.time) :
    ∀ s s' : Store, l.foldlM (addIfMissing cols0) s = .ok s' →
      (∀ r ∈ s.calendar_events, backfillRow r = r) →
      ∀ r ∈ s'.calendar_events, backfillRow r = r := by
  induction l with
  | nil =>
      intro s s' h hfix
      have h' : Except.ok s = Except.ok s' := h
      cases h'
      exact hfix
  | cons q l ih =>
      intro s s' h hfix
      rw [List.foldlM_cons] at h
      rcases hstep : addIfMissing cols0 s q with e | s1
      · rw [hstep] at h
        have hbad : (Except.error e : Except String Store) = .ok s' := h
        cases hbad
      · rw [hstep] at h
        have h1 : l.foldlM (addIfMissing cols0) s1 = .ok s' := h
        have hpres2 : ∀ p ∈ l, ∀ x : EventRow,
            (p.2 x).start_time = x.start_time ∧ (p.2 x).time = x.time :=
          fun p hp => hpres p (by simp [hp])
        unfold addIfMissing at hstep
        by_cases hq : q.1 ∈ cols0
        · rw [if_pos hq] at hstep
          have h2 : Except.ok s = Except.ok s1 := hstep
          cases h2
          exact ih hpres2 s s' h1 hfix
        · rw [if_neg hq] at hstep
          unfold addColumn at hstep
          by_cases hm : q.1 ∈ s.event_cols
          · rw [if_pos hm] at hstep
            cases hstep
          · rw [if_neg hm] at hstep
            have h2 : Except.ok _ = Except.ok s1 := hstep
            cases h2
            apply ih hpres2 _ s' h1
            intro r hr
            rcases List.mem_map.mp hr with ⟨x, hx, rfl⟩
            exact backfill_fixed_of_update q.2 (hpres q (by simp)) x (hfix x hx)

/-- Writing back a store's own event rows is the identity. -/
theorem store_events_update_self (s : Store) :
    { s with calendar_events := s.calendar_events } = s := by
  cases s
  rfl

/-- Setting an already-set index flag is the identity. -/
theorem store_index_update_self (s : Store) (h : s.has_index = true) :
    { s with has_index := true } = s := by
  obtain ⟨a, b, c, d⟩ := s
  have h' : d = true := h
  rw [h']

/-- C6: `ensure_calendar_schema` is idempotent — a second run on any
store it has migrated reports no error and returns the store unchanged
(in particular it adds no column twice). -/
theorem ensure_schema_idempotent (s s' : Store)
    (h : ensure_calendar_schema s = .ok s') :
    ensure_calendar_schema s' = .ok s' := by
  unfold ensure_calendar_schema at h
  rcases he1 : timeColumns.foldlM (addIfMissing s.event_cols) s with e | s1
  · rw [he1] at h
    have hbad : (Except.error e : Except String Store) = .ok s' := h
    cases hbad
  rw [he1] at h
  simp only [Except.bind] at h
  rcases he3 : newerColumns.foldlM (addIfMissing s.event_cols)
      { s1 with calendar_events := s1.calendar_events.map backfillRow }
    with e | s3
  · rw [he3] at h
    have hbad : (Except.error e : Except String Store) = .ok s' := h
    cases hbad
  rw [he3] at h
  simp only [Except.bind] at h
  have hs' : s' = { s3 with has_index := true } := by
    have h' : Except.ok { s3 with has_index := true } = Except.ok s' := h
    cases h'
    rfl
  have hmono1 := foldlM_addIfMissing_cols_mono s.event_cols timeColumns s s1 he1
  have hmono3 := foldlM_addIfMissing_cols_mono s.event_cols newerColumns _ s3 he3
  have htime : ∀ p ∈ timeColumns, p.1 ∈ s'.event_cols := by
    intro p hp
    have h1 : p.1 ∈ s1.event_cols :=
      foldlM_addIfMissing_target_mem s.event_cols timeColumns s s1 he1
        (fun _ hc => hc) p hp
    have h2 : p.1 ∈ s3.event_cols := hmono3 _ h1
    rw [hs']
    exact h2
  have hnewer : ∀ p ∈ newerColumns, p.1 ∈ s'.event_cols := by
    intro p hp
    have h2 : p.1 ∈ s3.event_cols :=
      foldlM_addIfMissing_target_mem s.event_cols newerColumns _ s3 he3
        (fun c hc => hmono1 c hc) p hp
    rw [hs']
    exact h2
  have hfix1 : ∀ r ∈ (s1.calendar_events.map backfillRow), backfillRow r = r := by
    intro r hr
    rcases List.mem_map.mp hr with ⟨x, _, rfl⟩
    exact backfillRow_idem x
  have hpres : ∀ p ∈ newerColumns, ∀ x : EventRow,
      (p.2 x).start_time = x.start_time ∧ (p.2 x).time = x.time := by
    intro p hp x
    simp only [newerColumns, List.mem_cons, List.not_mem_nil, or_false] at hp
    rcases hp with rfl | rfl | rfl | rfl | rfl | rfl | rfl | rfl | rfl <;>
      exact ⟨rfl, rfl⟩
  have hfix3 : ∀ r ∈ s3.calendar_events, backfillRow r = r :=
    foldlM_addIfMissing_rows_fixed s.event_cols newerColumns hpres _ s3 he3 hfix1
  have hfixS : ∀ r ∈ s'.calendar_events, backfillRow r = r := by
    rw [hs']
    exact hfix3
  have hidx : s'.has_index = true := by
    rw [hs']
  unfold ensure_calendar_schema
  have f1 : timeColumns.foldlM (addIfMissing s'.event_cols) s' = .ok s' :=
    foldlM_addIfMissing_all_mem _ _ _ htime
  rw [f1]
  simp only [Except.bind]
  have hrows : s'.calendar_events.map backfillRow = s'.calendar_events := by
    have := List.map_congr_left hfixS
    simpa using this
  rw [hrows, store_events_update_self]
  have f2 : newerColumns.foldlM (addIfMissing s'.event_cols) s' = .ok s' :=
    foldlM_addIfMissing_all_mem _ _ _ hnewer
  rw [f2]
  simp only [Except.bind]
  rw [store_index_update_self s' hidx]

/-- Store for the C6 witness: an old-shape table (no time columns yet)
with one legacy row. -/
def c6Store : Store :=
  { event_cols := ["id", "couple_id", "partner_name", "date", "time",
      "title", "color", "description"]
    calendar_events :=
      [{ couple_id := "c", date := some "2025-01-01",
         time := some "09:00", title := some "t" }]
    time_tracking := []
    has_index := false }

/-- C6 witness: running the migration on a concrete legacy store
succeeds, and the second run returns its result unchanged. -/
theorem ensure_schema_idempotent_witness :
    ensure_calendar_schema ((ensure_calendar_schema c6Store).toOption.getD
        c6Store)
      = .ok ((ensure_calendar_schema c6Store).toOption.getD c6Store) := by
  rcases hE : ensure_calendar_schema c6Store with e | s1
  · have hsome : (ensure_calendar_schema c6Store).toOption.isSome = true := by
      decide
    rw [hE] at hsome
    simp [Except.toOption] at hsome
  · have h := ensure_schema_idempotent c6Store s1 hE
    simpa [hE] using h

/-! ## C9: grid shape of the month renderer -/

/-- Day number of a cell (`0` for blank filler). -/
def cellNum : Cell → Nat
  | .empty => 0
  | .day n _ _ _ _ => n

/-- Whether a cell is an in-month day cell. -/
def isDayCell : Cell → Bool
  | .empty => false
  | .day _ _ _ _ _ => true

/-- Flattening a week-major grid of index-transformed ranges gives one
range. -/
theorem flatten_range_map (f : Nat → Nat) (W : Nat) :
    ((List.range W).map (fun w =>
        (List.range 7).map (fun i => f (7 * w + i)))).flatten
      = (List.range (7 * W)).map f := by
  induction W with
  | zero => rfl
  | succ W ih =>
      rw [List.range_succ W, List.map_append, List.flatten_append, ih]
      have h7 : 7 * (W + 1) = 7 * W + 7 := by ring
      rw [h7, List.range_add, List.map_append, List.map_map]
      rfl

/-- The cell grid's day numbers are exactly the `monthcalendar` numbers. -/
theorem generate_flat_cellNum (y m : Nat) (events : List EventRow)
    (today : Nat × Nat × Nat) :
    ((generate_calendar_view y m events today).flatten).map cellNum
      = (monthcalendar y m).flatten := by
  unfold generate_calendar_view
  rw [List.map_flatten, List.map_map]
  apply congrArg List.flatten
  have hpt : ∀ wk ∈ monthcalendar y m,
      (List.map cellNum ∘ fun week => week.enum.map (fun p =>
        if p.2 = 0 then Cell.empty
        else renderDay events today y m p.2 p.1)) wk = wk := by
    intro wk _
    show (wk.enum.map _).map cellNum = wk
    rw [List.map_map]
    have hfun : (cellNum ∘ fun p : Nat × Nat =>
        if p.2 = 0 then Cell.empty else renderDay events today y m p.2 p.1)
        = Prod.snd := by
      funext p
      by_cases hz : p.2 = 0 <;> simp [hz, cellNum, renderDay]
    rw [hfun, List.enum_map_snd]
  rw [List.map_congr_left hpt]
  exact List.map_id _

/-- Counting day cells in the grid counts nonzero `monthcalendar`
entries. -/
theorem generate_flat_count (y m : Nat) (events : List EventRow)
    (today : Nat × Nat × Nat) :
    ((generate_calendar_view y m events today).flatten).countP isDayCell
      = ((monthcalendar y m).flatten).countP (fun n => n != 0) := by
  unfold generate_calendar_view
  rw [List.countP_flatten, List.countP_flatten, List.map_map]
  congr 1
  apply List.map_congr_left
  intro wk _
  show (wk.enum.map _).countP isDayCell = wk.countP (fun n => n != 0)
  rw [List.countP_map]
  have h1 : (wk.enum.map Prod.snd).countP (fun n => n != 0)
      = wk.countP (fun n => n != 0) := by
    rw [List.enum_map_snd]
  rw [← h1, List.countP_map]
  apply List.countP_congr
  intro p _
  by_cases hz : p.2 = 0 <;>
    simp [Function.comp, hz, isDayCell, renderDay]

/-- Day counts are below 32 for every month. -/
theorem daysInMonth_lt (y m : Nat) : daysInMonth y m < 32 := by
  unfold daysInMonth
  split <;> first | (split <;> decide) | decide

/-- C9: for every valid month the rendered grid has exactly
`daysInMonth` day cells, a cell count that is a multiple of 7, weeks of
exactly 7 cells, and the Monday-first layout: position `j` of the
flattened grid carries day `j - w0 + 1` precisely on the window starting
at the Monday-based weekday `w0` of the 1st. -/
theorem renderMonth_grid_shape (y m : Nat) (events : List EventRow)
    (today : Nat × Nat × Nat) (hm1 : 1 ≤ m) (hm2 : m ≤ 12) :
    ((generate_calendar_view y m events today).flatten).countP isDayCell
        = daysInMonth y m
    ∧ ((generate_calendar_view y m events today).flatten).length % 7 = 0
    ∧ (∀ wk ∈ generate_calendar_view y m events today, wk.length = 7)
    ∧ ((generate_calendar_view y m events today).flatten).map cellNum
        = (List.range (7 * numWeeks y m)).map (fun j =>
            if weekdayMon y m 1 ≤ j ∧ j < weekdayMon y m 1 + daysInMonth y m
            then j - weekdayMon y m 1 + 1 else 0) := by
  have hmc : (monthcalendar y m).flatten
      = (List.range (7 * numWeeks y m)).map (fun j =>
          if weekdayMon y m 1 ≤ j ∧ j < weekdayMon y m 1 + daysInMonth y m
          then j - weekdayMon y m 1 + 1 else 0) := by
    simp only [monthcalendar, numWeeks]
    exact flatten_range_map
      (fun j => if weekdayMon y m 1 ≤ j ∧ j < weekdayMon y m 1 + daysInMonth y m
        then j - weekdayMon y m 1 + 1 else 0)
      ((weekdayMon y m 1 + daysInMonth y m + 6) / 7)
  have h4 : ((generate_calendar_view y m events today).flatten).map cellNum
      = (List.range (7 * numWeeks y m)).map (fun j =>
          if weekdayMon y m 1 ≤ j ∧ j < weekdayMon y m 1 + daysInMonth y m
          then j - weekdayMon y m 1 + 1 else 0) :=
    (generate_flat_cellNum y m events today).trans hmc
  have hw : weekdayMon y m 1 < 7 := Nat.mod_lt _ (by decide)
  have hn : daysInMonth y m < 32 := daysInMonth_lt y m
  have hcount : ∀ w0 < 7, ∀ n < 32,
      ((List.range (7 * ((w0 + n + 6) / 7))).countP
        (fun j => (if w0 ≤ j ∧ j < w0 + n then j - w0 + 1 else 0) != 0)) = n := by
    decide
  refine ⟨?_, ?_, ?_, h4⟩
  · rw [generate_flat_count, hmc, List.countP_map]
    have := hcount (weekdayMon y m 1) hw (daysInMonth y m) hn
    unfold numWeeks
    convert this using 2
  · have hlen : ((generate_calendar_view y m events today).flatten).length
        = 7 * numWeeks y m := by
      rw [← List.length_map ((generate_calendar_view y m events today).flatten)
        cellNum, h4, List.length_map, List.length_range]
    rw [hlen]
    exact Nat.mul_mod_right 7 _
  · intro wk hwk
    unfold generate_calendar_view at hwk
    rcases List.mem_map.mp hwk with ⟨w1, hw1, rfl⟩
    unfold monthcalendar at hw1
    rcases List.mem_map.mp hw1 with ⟨i, _, rfl⟩
    simp

/-- C9 witness: January 2025 renders 31 day cells in a 35-cell grid. -/
theorem renderMonth_grid_shape_witness :
    ((generate_calendar_view 2025 1 [] (2025, 1, 15)).flatten).countP
        isDayCell = 31
    ∧ ((generate_calendar_view 2025 1 [] (2025, 1, 15)).flatten).length % 7
        = 0 := by
  have h := renderMonth_grid_shape 2025 1 [] (2025, 1, 15)
    (by decide) (by decide)
  exact ⟨h.1.trans (by decide), h.2.1⟩

/-! ## C5: ordering and inclusive filtering of `get_calendar_events` -/

/-- Bytewise strict comparison is transitive. -/
theorem charListLt_trans : ∀ as bs cs : List Char,
    charListLt as bs = true → charListLt bs cs = true →
      charListLt as cs = true
  | [], [], _ => by simp [charListLt]
  | [], _ :: _, [] => by simp [charListLt]
  | [], _ :: _, _ :: _ => by simp [charListLt]
  | _ :: _, [], _ => by simp [charListLt]
  | _ :: _, _ :: _, [] => by simp [charListLt]
  | a :: as, b :: bs, c :: cs => by
      simp only [charListLt]
      intro hab hbc
      rcases lt_trichotomy a b with h1 | h1 | h1
      · rcases lt_trichotomy b c with h2 | h2 | h2
        · simp [lt_trans h1 h2]
        · subst h2
          simp [h1]
        · rw [if_neg (lt_asymm h2), if_pos h2] at hbc
          cases hbc
      · subst h1
        rcases lt_trichotomy a c with h2 | h2 | h2
        · simp [h2]
        · subst h2
          rw [if_neg (lt_irrefl a), if_neg (lt_irrefl a)] at hab hbc ⊢
          exact charListLt_trans as bs cs hab hbc
        · rw [if_neg (lt_asymm h2), if_pos h2] at hbc
          cases hbc
      · rw [if_neg (lt_asymm h1), if_pos h1] at hab
        cases hab

/-- Bytewise strict comparison is connex: mutually incomparable lists
are equal. -/
theorem charListLt_connex : ∀ as bs : List Char,
    charListLt as bs = false → charListLt bs as = false → as = bs
  | [], [] => by simp
  | [], _ :: _ => by simp [charListLt]
  | _ :: _, [] => by simp [charListLt]
  | a :: as, b :: bs => by
      simp only [charListLt]
      intro hab hba
      rcases lt_trichotomy a b with h1 | h1 | h1
      · rw [if_pos h1] at hab
        cases hab
      · subst h1
        rw [if_neg (lt_irrefl a), if_neg (lt_irrefl a)] at hab hba
        rw [charListLt_connex as bs hab hba]
      · rw [if_pos h1] at hba
        cases hba

/-- Non-strict TEXT comparison is total. -/
theorem strLe_total (a b : String) : (strLe a b || strLe b a) = true := by
  unfold strLe strLt
  by_cases h1 : charListLt a.data b.data = true
  · simp [h1]
  · by_cases h2 : charListLt b.data a.data = true
    · simp [h2]
    · have he : a = b := by
        apply String.ext
        exact charListLt_connex _ _ (by simpa using h1) (by simpa using h2)
      subst he
      simp

/-- Non-strict TEXT comparison is transitive. -/
theorem strLe_trans (a b c : String) (hab : strLe a b = true)
    (hbc : strLe b c = true) : strLe a c = true := by
  unfold strLe strLt at hab hbc ⊢
  rcases Bool.or_eq_true _ _ |>.mp hab with h1 | h1
  · rcases Bool.or_eq_true _ _ |>.mp hbc with h2 | h2
    · simp [charListLt_trans _ _ _ h1 h2]
    · have : b = c := by simpa using h2
      subst this
      simp [h1]
  · have : a = b := by simpa using h1
    subst this
    exact hbc

/-- The NULLs-first nullable comparison is transitive. -/
theorem optStrLtB_trans (a b c : Option String)
    (hab : optStrLtB a b = true) (hbc : optStrLtB b c = true) :
    optStrLtB a c = true := by
  rcases a with _ | x <;> rcases b with _ | y <;> rcases c with _ | z <;>
    simp_all [optStrLtB, strLt]
  exact charListLt_trans _ _ _ hab hbc

/-- The NULLs-first nullable comparison is connex. -/
theorem optStrLtB_connex (a b : Option String)
    (hab : optStrLtB a b = false) (hba : optStrLtB b a = false) :
    a = b := by
  rcases a with _ | x <;> rcases b with _ | y <;>
    simp_all [optStrLtB, strLt]
  exact String.ext (charListLt_connex _ _ hab hba)

/-- The `(date, sort_time)` row order is total. -/
theorem rowLe_total (cols : List String) (a b : EventRow) :
    (rowLe cols a b || rowLe cols b a) = true := by
  unfold rowLe
  by_cases h1 : optStrLtB a.date b.date = true
  · simp [h1]
  · by_cases h2 : optStrLtB b.date a.date = true
    · simp [h2]
    · have he : a.date = b.date :=
        optStrLtB_connex _ _ (by simpa using h1) (by simpa using h2)
      have hbeq : (a.date == b.date) = true := by
        exact beq_iff_eq.mpr he
      have hbeq2 : (b.date == a.date) = true := by
        exact beq_iff_eq.mpr he.symm
      have := strLe_total (sortTimeExpr cols a) (sortTimeExpr cols b)
      rcases Bool.or_eq_true _ _ |>.mp this with h3 | h3
      · simp [hbeq, h3]
      · simp [hbeq2, h3]

/-- The `(date, sort_time)` row order is transitive. -/
theorem rowLe_trans (cols : List String) (a b c : EventRow)
    (hab : rowLe cols a b = true) (hbc : rowLe cols b c = true) :
    rowLe cols a c = true := by
  unfold rowLe at hab hbc ⊢
  rcases Bool.or_eq_true _ _ |>.mp hab with h1 | h1
  · rcases Bool.or_eq_true _ _ |>.mp hbc with h2 | h2
    · simp [optStrLtB_trans _ _ _ h1 h2]
    · have heq : b.date = c.date := by
        have := (Bool.and_eq_true _ _ |>.mp h2).1
        exact beq_iff_eq.mp this
      rw [← heq]
      simp [h1]
  · rcases Bool.or_eq_true _ _ |>.mp hbc with h2 | h2
    · have heq : a.date = b.date := by
        have := (Bool.and_eq_true _ _ |>.mp h1).1
        exact beq_iff_eq.mp this
      rw [heq]
      simp [h2]
    · have hd1 := Bool.and_eq_true _ _ |>.mp h1
      have hd2 := Bool.and_eq_true _ _ |>.mp h2
      have heq : a.date = c.date :=
        (beq_iff_eq.mp hd1.1).trans (beq_iff_eq.mp hd2.1)
      have hle := strLe_trans _ _ _ hd1.2 hd2.2
      simp [beq_iff_eq.mpr heq, hle]

/-- C5: with a date range `[lo, hi]` (both truthy), `get_calendar_events`
returns a `(date asc, resolved-time asc)`-sorted sequence; a stored event
is returned iff it belongs to the household and its date lies inclusively
between the bounds; and when both time columns exist the resolved time
prefers `start_time`, falls back to the legacy `time`, then to the empty
string. -/
theorem queryEvents_sorted_inclusive (s : Store) (couple lo hi : String)
    (hlo : lo ≠ "") (hhi : hi ≠ "") :
    List.Pairwise (fun a b => rowLe s.event_cols a b = true)
        (get_calendar_events s couple (some lo) (some hi))
    ∧ (∀ e, e ∈ get_calendar_events s couple (some lo) (some hi) ↔
        e ∈ s.calendar_events ∧ e.couple_id = couple ∧
          ∃ d, e.date = some d ∧ strLe lo d = true ∧ strLe d hi = true)
    ∧ (∀ r : EventRow, "start_time" ∈ s.event_cols → "time" ∈ s.event_cols →
        (∀ t, r.start_time = some t → sortTimeExpr s.event_cols r = t)
        ∧ (r.start_time = none → ∀ u, r.time = some u →
            sortTimeExpr s.event_cols r = u)
        ∧ (r.start_time = none → r.time = none →
            sortTimeExpr s.event_cols r = "")) := by
  refine ⟨?_, ?_, ?_⟩
  · unfold get_calendar_events
    exact List.sorted_mergeSort
      (fun a b c hab hbc => rowLe_trans s.event_cols a b c hab hbc)
      (fun a b => rowLe_total s.event_cols a b) _
  · intro e
    unfold get_calendar_events
    rw [List.mem_mergeSort, List.mem_filter]
    unfold passesFilter
    have htr : (truthy (some lo) && truthy (some hi)) = true := by
      simp [truthy, hlo, hhi]
    rw [htr]
    constructor
    · rintro ⟨he, hp⟩
      simp only [if_true] at hp
      rcases hd : e.date with _ | d
      · rw [hd] at hp
        simp at hp
      · rw [hd] at hp
        simp only [Bool.and_eq_true, beq_iff_eq] at hp
        exact ⟨he, hp.1, d, rfl, hp.2.1, hp.2.2⟩
    · rintro ⟨he, hc, d, hd, h1, h2⟩
      refine ⟨he, ?_⟩
      rw [hd]
      simp [hc, h1, h2]
  · intro r h1 h2
    refine ⟨?_, ?_, ?_⟩
    · intro t ht
      simp [sortTimeExpr, h1, h2, ht, coalesce2]
    · intro hn u hu
      simp [sortTimeExpr, h1, h2, hn, hu, coalesce2]
    · intro hn hu
      simp [sortTimeExpr, h1, h2, hn, hu, coalesce2]

/-- An event dated just before the lower bound. -/
def c5Ev9 : EventRow :=
  { couple_id := "c", date := some "2025-01-09", title := some "early" }

/-- An event dated exactly on the upper bound. -/
def c5Ev20 : EventRow :=
  { couple_id := "c", date := some "2025-01-20", title := some "bound" }

/-- Store for the C5 witness. -/
def c5Store : Store :=
  { event_cols := fullEventCols
    calendar_events := [c5Ev9, c5Ev20]
    time_tracking := []
    has_index := true }

/-- C5 witness: the range `[2025-01-10, 2025-01-20]` excludes the event
dated 2025-01-09 and includes the one dated exactly 2025-01-20. -/
theorem queryEvents_sorted_inclusive_witness :
    c5Ev9 ∉ get_calendar_events c5Store "c"
        (some "2025-01-10") (some "2025-01-20")
    ∧ c5Ev20 ∈ get_calendar_events c5Store "c"
        (some "2025-01-10") (some "2025-01-20") := by
  have h := (queryEvents_sorted_inclusive c5Store "c"
    "2025-01-10" "2025-01-20" (by decide) (by decide)).2.1
  constructor
  · intro hm
    rcases (h c5Ev9).mp hm with ⟨_, _, d, hd, hle, _⟩
    have hd9 : d = "2025-01-09" := by
      have hx : some d = some "2025-01-09" := by rw [← hd]; rfl
      exact (Option.some.injEq _ _ ▸ hx)
    rw [hd9] at hle
    exact absurd hle (by decide)
  · exact (h c5Ev20).mpr ⟨by decide, rfl, "2025-01-20", rfl,
      by decide, by decide⟩

end CouplesApp
